import Mathlib

/-!
# TechMart dashboard — verification of the filter-and-aggregate pipeline

Shallow embedding of `src/app.py` (a Streamlit/pandas dashboard).  Rows of the
pandas DataFrame are modelled as a Lean structure; nullable cells (pandas
`NaN`/`NaT`) are `Option`s; the pandas operations that the app uses
(`isin`-filtering, `groupby(...)['revenue'].sum()`, `pivot_table`,
column-wise `sum`/`mean`) are modelled as list functions, reproducing the
documented pandas semantics: `groupby` silently drops rows whose group key is
null, `Series.isin` is false on null entries, `astype(str)` turns a `NaT`
period into the literal string "NaT", and `mean()` of an empty series is `NaN`
(modelled as `none`).  Currency amounts are modelled as exact integers.
-/

namespace TechMart

/-- A calendar date (the value of `Timestamp.date()` / `Series.dt.date`). -/
structure Date where
  year : Int
  month : Nat
  day : Nat
deriving DecidableEq, Repr

/-- Chronological comparison of dates, as Python compares `datetime.date`
values: lexicographic on (year, month, day). -/
def dateLE (a b : Date) : Bool :=
  (a.year < b.year)
    || (a.year == b.year
          && ((a.month < b.month) || (a.month == b.month && a.day ≤ b.day)))

/-- A parsed timestamp: a calendar date plus an hour-of-day. -/
structure DateTime where
  date : Date
  hour : Nat
deriving DecidableEq, Repr

/-- A raw timestamp cell as it arrives from the CSV.  `valid t` is a value that
`pd.to_datetime` parses to `t`; `invalid s` is a string it cannot parse. -/
inductive TsCell where
  | valid (t : DateTime)
  | invalid (s : String)
deriving DecidableEq, Repr

/-- `pd.to_datetime(col, errors='coerce')` (src/app.py line 30): parseable
values become their datetime, unparseable values become null (`NaT`). -/
def parse_ts : TsCell → Option DateTime
  | .valid t => some t
  | .invalid _ => none

/-- A Python value as it can sit in the `age` column after `read_csv`:
an integer, a float (possibly `NaN`), or a string. -/
inductive PyVal where
  | intv (n : Int)
  | floatv (q : Rat)
  | nanv
  | strv (s : String)
deriving DecidableEq, Repr

/-- An ASCII whitespace character (the characters Python's `int(str)`
strips from both ends of its argument). -/
def isSpaceChar (c : Char) : Bool :=
  c == ' ' || c == '\t' || c == '\n' || c == '\r'

/-- Accumulate a run of decimal digits; `none` if the run is empty or a
non-digit appears. -/
def parseDigits : List Char → Nat → Bool → Option Nat
  | [], _, false => none
  | [], acc, true => some acc
  | c :: cs, acc, _ =>
      if 48 ≤ c.toNat && c.toNat ≤ 57 then
        parseDigits cs (acc * 10 + (c.toNat - 48)) true
      else none

/-- Python `int(s)` on a string: strip surrounding whitespace, allow one
optional sign, then require a non-empty run of decimal digits; anything else
raises (`none`).  (Underscore digit separators, accepted by Python, are not
modelled.) -/
def pyIntOfChars (l : List Char) : Option Int :=
  let core := ((l.dropWhile isSpaceChar).reverse.dropWhile isSpaceChar).reverse
  match core with
  | '-' :: rest => (parseDigits rest 0 false).map (fun n => -(n : Int))
  | '+' :: rest => (parseDigits rest 0 false).map (fun n => (n : Int))
  | _ => (parseDigits core 0 false).map (fun n => (n : Int))

/-- Python `int(x)` as applied in `age_group` (src/app.py line 39): on an int,
identity; on a float, truncation toward zero (`int(nan)` raises, hence
`none`); on a string, parse as an optionally signed decimal integer after
stripping surrounding whitespace, raising (`none`) on failure. -/
def pyInt : PyVal → Option Int
  | .intv n => some n
  | .floatv q => some (Int.tdiv q.num (q.den : Int))
  | .nanv => none
  | .strv s => pyIntOfChars s.data

/-- `age_group` (src/app.py lines 37-47): `try: age = int(age)`, then
`if age < 18: "Minor" elif age < 35: "Youth" else: "Adult"`, and
`except: "Unknown"`. -/
def age_group (age : PyVal) : String :=
  match pyInt age with
  | some a => if a < 18 then "Minor" else if a < 35 then "Youth" else "Adult"
  | none => "Unknown"

/-- A raw CSV row after `read_csv` and column-name normalization
(src/app.py lines 24-27).  Categorical cells may be missing (`none`);
`revenue` and `discount` are currency amounts, modelled as exact integers. -/
structure RawRow where
  timestamp : TsCell
  county : Option String
  storename : Option String
  category : Option String
  product : Option String
  paymentmethod : Option String
  gender : Option String
  age : PyVal
  revenue : Int
  discount : Int
deriving DecidableEq, Repr

/-- `str(period)` for a monthly period (src/app.py line 31,
`dt.to_period('M').astype(str)`): `"YYYY-MM"`, and the `NaT` period of an
unparsed timestamp becomes the literal string `"NaT"`. -/
def monthStr : Option DateTime → String
  | some t =>
      toString t.date.year ++ "-"
        ++ (if t.date.month < 10 then "0" ++ toString t.date.month
            else toString t.date.month)
  | none => "NaT"

/-- `str(period)` for a quarterly period (src/app.py line 34,
`dt.to_period('Q').astype(str)`): `"YYYYQn"`, and `NaT` becomes the literal
string `"NaT"`. -/
def quarterStr : Option DateTime → String
  | some t => toString t.date.year ++ "Q" ++ toString ((t.date.month - 1) / 3 + 1)
  | none => "NaT"

/-- An enriched row of the loaded DataFrame (src/app.py lines 30-49):
the parsed timestamp, the four calendar-derived columns, the `age_group`
classification, and the raw categorical/numeric columns.  `day` and `hour`
are null (`none`) when the timestamp failed to parse (`dt.date` / `dt.hour`
of `NaT` are missing values); `month` and `quarter` are strings and carry the
sentinel `"NaT"` instead. -/
structure Row where
  timestamp : Option DateTime
  month : String
  day : Option Date
  hour : Option Nat
  quarter : String
  age_group : String
  county : Option String
  storename : Option String
  category : Option String
  product : Option String
  paymentmethod : Option String
  gender : Option String
  revenue : Int
  discount : Int
deriving DecidableEq, Repr

/-- The per-row enrichment performed by `load_data` (src/app.py lines 30-49). -/
def enrichRow (raw : RawRow) : Row :=
  let ts := parse_ts raw.timestamp
  { timestamp := ts
    month := monthStr ts
    day := ts.map (fun t => t.date)
    hour := ts.map (fun t => t.hour)
    quarter := quarterStr ts
    age_group := age_group raw.age
    county := raw.county
    storename := raw.storename
    category := raw.category
    product := raw.product
    paymentmethod := raw.paymentmethod
    gender := raw.gender
    revenue := raw.revenue
    discount := raw.discount }

/-- `load_data` (src/app.py lines 18-55).  The argument is the outcome of the
raw fetch (`pd.read_csv` over HTTP): `Except.error` is a fetch/parse failure
of the whole source, `Except.ok` the list of raw rows.  On failure the
function shows an error and returns an empty DataFrame (line 55); on success
it returns every raw row enriched. -/
def load_data : Except String (List RawRow) → List Row
  | .error _ => []
  | .ok raws => raws.map enrichRow

/-- The caller's guard (src/app.py lines 61-63): if the loaded DataFrame is
empty, a warning is shown and `st.stop()` halts rendering, so no dashboard is
drawn. -/
def dashboardHalts (fetch : Except String (List RawRow)) : Bool :=
  (load_data fetch).isEmpty

/-! ## Filters (src/app.py lines 70-130) -/

/-- The sidebar filter state: one multiselect list per categorical dimension
(empty list = nothing selected = filter inactive) and the date-input value,
a list of 0, 1 or 2 dates. -/
structure Filters where
  county : List String
  store : List String
  category : List String
  product : List String
  payment : List String
  gender : List String
  ageGroup : List String
  date_selection : List Date
deriving DecidableEq, Repr

/-- No filter selected anywhere. -/
def noFilters : Filters :=
  { county := [], store := [], category := [], product := [], payment := []
    gender := [], ageGroup := [], date_selection := [] }

/-- `Series.isin(sel)` on a nullable string column: a null cell is in no list
of selected strings, so it never matches. -/
def optIsin (v : Option String) (sel : List String) : Bool :=
  match v with
  | some s => sel.contains s
  | none => false

/-- One `if selected_x: filtered_df = filtered_df[filtered_df[col].isin(selected_x)]`
step of src/app.py lines 104-115, for a nullable string column. -/
def memberFilter (get : Row → Option String) (sel : List String)
    (rows : List Row) : List Row :=
  if sel.isEmpty then rows else rows.filter (fun r => optIsin (get r) sel)

/-- The `age_group` step (src/app.py lines 116-117); the `age_group` column is
a total string column, never null. -/
def ageGroupFilter (sel : List String) (rows : List Row) : List Row :=
  if sel.isEmpty then rows else rows.filter (fun r => sel.contains r.age_group)

/-- The date filter (src/app.py lines 120-130): two dates selected → keep rows
with `start <= timestamp.date <= end` (inclusive); one date → keep rows whose
`timestamp.date` equals it; otherwise no restriction.  Pandas comparisons of
`NaT` against a date are false, so a row with an unparsed timestamp never
survives an active date filter. -/
def applyDateFilter (sel : List Date) (rows : List Row) : List Row :=
  match sel with
  | [start_date, end_date] =>
      rows.filter (fun r =>
        match r.timestamp with
        | some t => dateLE start_date t.date && dateLE t.date end_date
        | none => false)
  | [start_date] =>
      rows.filter (fun r =>
        match r.timestamp with
        | some t => t.date == start_date
        | none => false)
  | _ => rows

/-- `filtered_df` (src/app.py lines 102-130): the seven membership filters
applied in program order, then the date filter. -/
def filtered_df (df : List Row) (f : Filters) : List Row :=
  let d1 := memberFilter Row.county f.county df
  let d2 := memberFilter Row.storename f.store d1
  let d3 := memberFilter Row.category f.category d2
  let d4 := memberFilter Row.product f.product d3
  let d5 := memberFilter Row.paymentmethod f.payment d4
  let d6 := memberFilter Row.gender f.gender d5
  let d7 := ageGroupFilter f.ageGroup d6
  applyDateFilter f.date_selection d7

/-- The date predicate of `applyDateFilter`, as a per-row Boolean. -/
def dateFilterMatch (sel : List Date) (ts : Option DateTime) : Bool :=
  match sel with
  | [start_date, end_date] =>
      match ts with
      | some t => dateLE start_date t.date && dateLE t.date end_date
      | none => false
  | [start_date] =>
      match ts with
      | some t => t.date == start_date
      | none => false
  | _ => true

/-- The conjunction of the seven non-date filters (an empty selection
imposes no constraint). -/
def nonDateMatches (f : Filters) (r : Row) : Bool :=
  (f.county.isEmpty || optIsin r.county f.county)
    && (f.store.isEmpty || optIsin r.storename f.store)
    && (f.category.isEmpty || optIsin r.category f.category)
    && (f.product.isEmpty || optIsin r.product f.product)
    && (f.payment.isEmpty || optIsin r.paymentmethod f.payment)
    && (f.gender.isEmpty || optIsin r.gender f.gender)
    && (f.ageGroup.isEmpty || f.ageGroup.contains r.age_group)

/-- A row matches the whole filter configuration: every active filter
accepts it. -/
def matchesRow (f : Filters) (r : Row) : Bool :=
  nonDateMatches f r && dateFilterMatch f.date_selection r.timestamp

/-- The eight per-filter row predicates, in the order the program applies
them (county, store, category, product, payment, gender, age group, date). -/
def filterPreds (f : Filters) : List (Row → Bool) :=
  [fun r => f.county.isEmpty || optIsin r.county f.county,
   fun r => f.store.isEmpty || optIsin r.storename f.store,
   fun r => f.category.isEmpty || optIsin r.category f.category,
   fun r => f.product.isEmpty || optIsin r.product f.product,
   fun r => f.payment.isEmpty || optIsin r.paymentmethod f.payment,
   fun r => f.gender.isEmpty || optIsin r.gender f.gender,
   fun r => f.ageGroup.isEmpty || f.ageGroup.contains r.age_group,
   fun r => dateFilterMatch f.date_selection r.timestamp]

/-- Apply a list of row predicates one after the other, each as a filtering
pass over the surviving rows. -/
def applySeq (ps : List (Row → Bool)) (rows : List Row) : List Row :=
  ps.foldl (fun acc p => acc.filter p) rows

/-! ## Store-name candidate domain (src/app.py lines 74-79) -/

/-- `store_names` (src/app.py lines 75-78): if counties are selected, the
distinct non-null store names among rows whose county is selected; otherwise
the distinct non-null store names of all rows.  The source additionally
sorts the list for display; the candidate domain is its set of elements. -/
def store_names (df : List Row) (selected_county : List String) : List String :=
  if selected_county.isEmpty then (df.filterMap Row.storename).dedup
  else ((df.filter (fun r => optIsin r.county selected_county)).filterMap
          Row.storename).dedup

/-! ## KPIs (src/app.py lines 137-140) -/

/-- `total_txns = len(filtered_df)`. -/
def total_txns (rows : List Row) : Nat := rows.length

/-- `total_revenue = filtered_df['revenue'].sum()` (the pandas sum of an
empty numeric series is 0). -/
def total_revenue (rows : List Row) : Int := (rows.map Row.revenue).sum

/-- `total_discount = filtered_df['discount'].sum()`. -/
def total_discount (rows : List Row) : Int := (rows.map Row.discount).sum

/-- `avg_sale = filtered_df['revenue'].mean()`: the mean of an empty series
is `NaN`, a defined "no value", modelled as `none`. -/
def avg_sale (rows : List Row) : Option Rat :=
  if rows.length = 0 then none
  else some ((total_revenue rows : Rat) / (rows.length : Rat))

/-! ## Grouped aggregation (src/app.py lines 163-205)

`groupby(col)['revenue'].sum()` with the pandas default `dropna=True`: rows
whose group key is null are silently dropped; each remaining distinct key
becomes one group whose value is the sum of `revenue` over its rows.  The
source also sorts the result for display (by key, or by revenue for
`county_sales`); ordering is immaterial to the properties proved below, so
groups are listed in first-occurrence order. -/

/-- The distinct non-null keys of `rows` under `key`. -/
def groupKeys {α : Type} [DecidableEq α] (key : Row → Option α)
    (rows : List Row) : List α :=
  (rows.filterMap key).dedup

/-- `rows.groupby(key)['revenue'].sum()`: one `(key, summed revenue)` pair per
distinct non-null key. -/
def groupSum {α : Type} [DecidableEq α] (key : Row → Option α)
    (rows : List Row) : List (α × Int) :=
  (groupKeys key rows).map
    (fun k => (k, total_revenue (rows.filter (fun r => key r == some k))))

/-- `county_sales` (src/app.py lines 163-168): revenue summed per county. -/
def county_sales (rows : List Row) : List (String × Int) :=
  groupSum Row.county rows

/-- Monthly drill-down / roll-up (src/app.py lines 185, 201): revenue summed
per `month` label; the `month` column is a string, never null. -/
def drill_month (rows : List Row) : List (String × Int) :=
  groupSum (fun r => some r.month) rows

/-- Daily drill-down (src/app.py line 188): revenue summed per `day`; the
`day` of an unparsed timestamp is null and its rows are dropped. -/
def drill_day (rows : List Row) : List (Date × Int) :=
  groupSum Row.day rows

/-- Hourly drill-down (src/app.py line 191): revenue summed per `hour`; the
`hour` of an unparsed timestamp is null and its rows are dropped. -/
def drill_hour (rows : List Row) : List (Nat × Int) :=
  groupSum Row.hour rows

/-- Quarterly roll-up (src/app.py line 204): revenue summed per `quarter`
label; the `quarter` column is a string, never null. -/
def roll_quarter (rows : List Row) : List (String × Int) :=
  groupSum (fun r => some r.quarter) rows

/-! ## Pivot table (src/app.py lines 212-218)

`pivot_table(index='category', columns='month', values='revenue',
aggfunc='sum', fill_value=0)`: pandas first groups by the `(category, month)`
pair with its default `dropna=True`, so rows with a null `category` are
dropped entirely — they contribute to neither axis; the row axis is then the
distinct observed categories, the column axis the distinct months observed
among the surviving rows, and every `(category, month)` cell of that
rectangular grid holds the summed revenue of its rows, with `fill_value=0`
replacing the empty cells. -/

/-- The row axis of the pivot: distinct non-null categories. -/
def pivotCats (rows : List Row) : List String :=
  (rows.filterMap Row.category).dedup

/-- The column axis of the pivot: distinct `month` labels among rows whose
`category` is non-null (rows dropped by `dropna` contribute no column). -/
def pivotMonths (rows : List Row) : List String :=
  ((rows.filter (fun r => (r.category).isSome)).map Row.month).dedup

/-- One pivot cell: summed revenue over the rows with the given category and
month (0 when no row matches, by `fill_value=0`). -/
def pivotCell (rows : List Row) (c m : String) : Int :=
  total_revenue (rows.filter (fun r => r.category == some c && r.month == m))

/-- `pivot_df`: the dense rectangular grid, one entry per category carrying
one cell per month of the column axis. -/
def pivot_df (rows : List Row) : List (String × List (String × Int)) :=
  (pivotCats rows).map
    (fun c => (c, (pivotMonths rows).map (fun m => (m, pivotCell rows c m))))

/-! ## Lemmas: the filter pipeline is a pure conjunction -/

lemma memberFilter_eq_filter (get : Row → Option String) (sel : List String)
    (rows : List Row) :
    memberFilter get sel rows
      = rows.filter (fun r => sel.isEmpty || optIsin (get r) sel) := by
  by_cases h : sel.isEmpty <;> simp [memberFilter, h, List.filter_true]

lemma ageGroupFilter_eq_filter (sel : List String) (rows : List Row) :
    ageGroupFilter sel rows
      = rows.filter (fun r => sel.isEmpty || sel.contains r.age_group) := by
  by_cases h : sel.isEmpty <;> simp [ageGroupFilter, h, List.filter_true]

lemma applyDateFilter_eq_filter (sel : List Date) (rows : List Row) :
    applyDateFilter sel rows
      = rows.filter (fun r => dateFilterMatch sel r.timestamp) := by
  match sel with
  | [] => simp [applyDateFilter, dateFilterMatch, List.filter_true]
  | [s] => rfl
  | [s, e] => rfl
  | _ :: _ :: _ :: _ => simp [applyDateFilter, dateFilterMatch, List.filter_true]

lemma applySeq_nil (rows : List Row) : applySeq [] rows = rows := rfl

lemma applySeq_cons (p : Row → Bool) (ps : List (Row → Bool)) (rows : List Row) :
    applySeq (p :: ps) rows = applySeq ps (rows.filter p) := rfl

lemma applySeq_eq_filter_all (ps : List (Row → Bool)) (rows : List Row) :
    applySeq ps rows = rows.filter (fun r => ps.all (fun p => p r)) := by
  induction ps generalizing rows with
  | nil => simp [applySeq_nil, List.all_nil, List.filter_true]
  | cons p ps ih =>
      rw [applySeq_cons, ih, List.filter_filter]
      exact List.filter_congr (fun r _ => by
        simp [List.all_cons, Bool.and_comm])

lemma all_eq_of_perm {ps qs : List (Row → Bool)} (h : ps.Perm qs) (r : Row) :
    ps.all (fun p => p r) = qs.all (fun p => p r) := by
  rw [Bool.eq_iff_iff]
  simp only [List.all_eq_true]
  exact ⟨fun hall p hp => hall p (h.mem_iff.mpr hp),
         fun hall p hp => hall p (h.mem_iff.mp hp)⟩

lemma applySeq_perm {ps qs : List (Row → Bool)} (h : ps.Perm qs)
    (rows : List Row) : applySeq ps rows = applySeq qs rows := by
  rw [applySeq_eq_filter_all, applySeq_eq_filter_all]
  exact List.filter_congr (fun r _ => all_eq_of_perm h r)

lemma filtered_df_eq_applySeq (df : List Row) (f : Filters) :
    filtered_df df f = applySeq (filterPreds f) df := by
  simp only [filtered_df, filterPreds, applySeq, List.foldl_cons, List.foldl_nil,
    memberFilter_eq_filter, ageGroupFilter_eq_filter, applyDateFilter_eq_filter]

lemma matchesRow_eq_all (f : Filters) (r : Row) :
    matchesRow f r = (filterPreds f).all (fun p => p r) := by
  simp [matchesRow, nonDateMatches, filterPreds, List.all_cons, List.all_nil,
    Bool.and_assoc]

lemma filtered_df_eq_filter (df : List Row) (f : Filters) :
    filtered_df df f = df.filter (matchesRow f) := by
  rw [filtered_df_eq_applySeq, applySeq_eq_filter_all]
  exact List.filter_congr (fun r _ => (matchesRow_eq_all f r).symm)

lemma mem_filtered_df {df : List Row} {f : Filters} {r : Row} :
    r ∈ filtered_df df f ↔ r ∈ df ∧ matchesRow f r = true := by
  rw [filtered_df_eq_filter]; exact List.mem_filter

/-! ## Lemmas: summing a grouped aggregation -/

lemma total_revenue_nil : total_revenue [] = 0 := rfl

lemma total_revenue_cons (r : Row) (l : List Row) :
    total_revenue (r :: l) = r.revenue + total_revenue l := by
  simp [total_revenue]

lemma total_revenue_filter_cons (p : Row → Bool) (r : Row) (l : List Row) :
    total_revenue ((r :: l).filter p)
      = (if p r then r.revenue else 0) + total_revenue (l.filter p) := by
  by_cases h : p r <;> simp [List.filter_cons, h, total_revenue]

lemma sum_indicator_zero {α : Type} [DecidableEq α] (keys : List α) (k0 : α)
    (c : Int) (h : k0 ∉ keys) :
    (keys.map (fun k => if k0 = k then c else 0)).sum = 0 := by
  apply List.sum_eq_zero
  intro x hx
  rcases List.mem_map.mp hx with ⟨k, hk, rfl⟩
  rw [if_neg]
  rintro rfl
  exact h hk

lemma sum_indicator {α : Type} [DecidableEq α] (keys : List α) (k0 : α)
    (c : Int) (hnd : keys.Nodup) (hmem : k0 ∈ keys) :
    (keys.map (fun k => if k0 = k then c else 0)).sum = c := by
  induction keys with
  | nil => cases hmem
  | cons a rest ih =>
      rcases List.mem_cons.mp hmem with rfl | hm
      · simp only [List.map_cons, List.sum_cons, if_pos rfl]
        rw [sum_indicator_zero rest k0 c (List.nodup_cons.mp hnd).1]
        simp
      · have hne : k0 ≠ a := by
          rintro rfl
          exact (List.nodup_cons.mp hnd).1 hm
        simp only [List.map_cons, List.sum_cons, if_neg hne]
        rw [ih (List.nodup_cons.mp hnd).2 hm]
        simp

lemma sum_subtotals {α : Type} [DecidableEq α] (key : Row → Option α)
    (keys : List α) (hnd : keys.Nodup) :
    ∀ rows : List Row, (∀ r ∈ rows, ∀ k, key r = some k → k ∈ keys) →
      (keys.map
          (fun k => total_revenue (rows.filter (fun r => key r == some k)))).sum
        = total_revenue (rows.filter (fun r => (key r).isSome)) := by
  intro rows
  induction rows with
  | nil =>
      intro _
      simp [total_revenue]
  | cons r rest ih =>
      intro hcov
      have hcov' : ∀ x ∈ rest, ∀ k, key x = some k → k ∈ keys :=
        fun x hx => hcov x (List.mem_cons_of_mem _ hx)
      have hmap : (keys.map
            (fun k => total_revenue ((r :: rest).filter (fun x => key x == some k))))
          = keys.map (fun k =>
              (if key r == some k then r.revenue else 0)
                + total_revenue (rest.filter (fun x => key x == some k))) :=
        List.map_congr_left (fun k _ => total_revenue_filter_cons _ _ _)
      rw [hmap, List.sum_map_add, ih hcov']
      rcases hk : key r with _ | k0
      · have hz : (keys.map
              (fun k => if (none : Option α) == some k then r.revenue else 0)).sum
            = 0 := by
          apply List.sum_eq_zero
          intro x hx
          rcases List.mem_map.mp hx with ⟨k, _, rfl⟩
          simp
        rw [hz]
        simp [List.filter_cons, hk]
      · have hind : (keys.map
              (fun k => if (some k0 : Option α) == some k then r.revenue else 0))
            = keys.map (fun k => if k0 = k then r.revenue else 0) :=
          List.map_congr_left (fun k _ => by by_cases h : k0 = k <;> simp [h])
        rw [hind,
          sum_indicator keys k0 r.revenue hnd (hcov r (List.mem_cons_self _ _) k0 hk)]
        simp [List.filter_cons, hk, total_revenue_cons]

/-- The fundamental conservation identity of `groupSum`: the per-group sums
add up to the total revenue of the rows whose group key is non-null. -/
lemma groupSum_snd_sum {α : Type} [DecidableEq α] (key : Row → Option α)
    (rows : List Row) :
    ((groupSum key rows).map Prod.snd).sum
      = total_revenue (rows.filter (fun r => (key r).isSome)) := by
  unfold groupSum
  rw [List.map_map]
  exact sum_subtotals key (groupKeys key rows) (List.nodup_dedup _) rows
    (fun r hr k hk =>
      List.mem_dedup.mpr (List.mem_filterMap.mpr ⟨r, hr, hk⟩))

/-- For a total (never-null) grouping key, the per-group sums add up to the
total revenue of all rows. -/
lemma groupSum_snd_sum_total {α : Type} [DecidableEq α] (g : Row → α)
    (rows : List Row) :
    ((groupSum (fun r => some (g r)) rows).map Prod.snd).sum
      = total_revenue rows := by
  rw [groupSum_snd_sum]
  simp [List.filter_true]

/-! ## Concrete fixtures used by witnesses and counterexamples -/

/-- A fully populated raw row with a parseable timestamp. -/
def sampleRaw : RawRow :=
  { timestamp := .valid ⟨⟨2024, 1, 15⟩, 10⟩, county := some "Nairobi"
    storename := some "S1", category := some "A", product := some "P"
    paymentmethod := some "Cash", gender := some "F", age := .intv 30
    revenue := 5, discount := 1 }

/-- A raw row with an unparseable timestamp, a missing county and a missing
category. -/
def natRaw : RawRow :=
  { sampleRaw with
    timestamp := .invalid "not-a-date"
    county := none
    category := none
    revenue := 7 }

/-- The enriched fixtures. -/
def sampleRow : Row := enrichRow sampleRaw

def natRow : Row := enrichRow natRaw

/-- A filter configuration selecting one county and one store. -/
def sampleFilters : Filters :=
  { noFilters with county := ["Nairobi"], store := ["S1"] }

/-- The predicates of `sampleFilters` with the first two (county, store)
swapped. -/
def swappedPreds : List (Row → Bool) :=
  (fun r => sampleFilters.store.isEmpty || optIsin r.storename sampleFilters.store)
    :: (fun r => sampleFilters.county.isEmpty || optIsin r.county sampleFilters.county)
    :: (filterPreds sampleFilters).drop 2

/-! ## The claims -/

/-- C1: `age_group` is a total, deterministic classification of the `age`
cell alone: if `int(age)` fails the label is `"Unknown"`; otherwise the
parsed value classifies as `"Minor"` below 18, `"Youth"` from 18 up to but
excluding 35, `"Adult"` from 35; every row's `age_group` column is exactly
the classification of its `age` cell, and is always one of the four labels,
never null. -/
theorem age_group_total_classification (age : PyVal) :
    age_group age ∈ (["Minor", "Youth", "Adult", "Unknown"] : List String)
      ∧ (∀ raw : RawRow, raw.age = age → (enrichRow raw).age_group = age_group age)
      ∧ (pyInt age = none → age_group age = "Unknown")
      ∧ ∀ n : Int, pyInt age = some n →
          (n < 18 → age_group age = "Minor")
            ∧ (18 ≤ n → n < 35 → age_group age = "Youth")
            ∧ (35 ≤ n → age_group age = "Adult") := by
  refine ⟨?_, fun raw hr => by simp [enrichRow, hr],
    fun hnone => by simp [age_group, hnone], fun n hn => ?_⟩
  · unfold age_group
    rcases pyInt age with _ | a
    · simp
    · by_cases h1 : a < 18 <;> by_cases h2 : a < 35 <;> simp [h1, h2]
  · refine ⟨fun hlt => ?_, fun hge hlt => ?_, fun hge => ?_⟩
    · simp [age_group, hn, if_pos hlt]
    · simp only [age_group, hn]
      rw [if_neg (by omega), if_pos hlt]
    · simp only [age_group, hn]
      rw [if_neg (by omega), if_neg (by omega)]

/-- Witness for C1: the classification at the concrete inputs `"abc"`
(unparseable), 17, 18, 34, 35, and on a concrete enriched row. -/
theorem age_group_total_classification_witness :
    age_group (.strv "abc") = "Unknown"
      ∧ age_group (.intv 17) = "Minor"
      ∧ age_group (.intv 18) = "Youth"
      ∧ age_group (.intv 34) = "Youth"
      ∧ age_group (.intv 35) = "Adult"
      ∧ (enrichRow sampleRaw).age_group = age_group (.intv 30) :=
  ⟨(age_group_total_classification (.strv "abc")).2.2.1 (by decide),
   ((age_group_total_classification (.intv 17)).2.2.2 17 (by decide)).1 (by decide),
   ((age_group_total_classification (.intv 18)).2.2.2 18 (by decide)).2.1
      (by decide) (by decide),
   ((age_group_total_classification (.intv 34)).2.2.2 34 (by decide)).2.1
      (by decide) (by decide),
   ((age_group_total_classification (.intv 35)).2.2.2 35 (by decide)).2.2 (by decide),
   (age_group_total_classification (.intv 30)).2.1 sampleRaw (by decide)⟩

/-- C2: filter application is a pure conjunction — for every loaded row-set
and filter configuration, `filtered_df` equals the single-pass filter by the
conjunction `matchesRow` (a row is kept iff it matches every active filter;
an empty selection is no constraint, by definition of `matchesRow`); a row is
in the result iff it is a loaded row matching every active filter; the result
is a subset of the loaded rows; and applying the eight individual filters in
any permutation of the program order yields the same row-set. -/
theorem filtered_df_pure_conjunction (df : List Row) (f : Filters) :
    filtered_df df f = df.filter (matchesRow f)
      ∧ (∀ r, r ∈ filtered_df df f ↔ r ∈ df ∧ matchesRow f r = true)
      ∧ (∀ r ∈ filtered_df df f, r ∈ df)
      ∧ ∀ ps : List (Row → Bool), ps.Perm (filterPreds f) →
          applySeq ps df = filtered_df df f := by
  refine ⟨filtered_df_eq_filter df f, fun r => mem_filtered_df,
    fun r hr => (mem_filtered_df.mp hr).1, fun ps hp => ?_⟩
  rw [filtered_df_eq_applySeq]
  exact applySeq_perm hp df

/-- Witness for C2: on a concrete two-row set with county and store selected,
the subset property holds of a row in the result, and swapping the first two
filter passes leaves the result unchanged. -/
theorem filtered_df_pure_conjunction_witness :
    sampleRow ∈ [sampleRow, natRow]
      ∧ applySeq swappedPreds [sampleRow, natRow]
          = filtered_df [sampleRow, natRow] sampleFilters :=
  ⟨(filtered_df_pure_conjunction [sampleRow, natRow] sampleFilters).2.2.1
      sampleRow (by decide),
   (filtered_df_pure_conjunction [sampleRow, natRow] sampleFilters).2.2.2
      swappedPreds (List.Perm.swap _ _ _)⟩

/-- Counterexample for C3 as stated: for the filtered row-set consisting of
the single row `natRow` (null county, revenue 7), the sum of per-county
revenue is 0 — `groupby('county')` drops the null-county row — while the KPI
total revenue is 7, so the sum over county-groups does not equal the KPI
total. -/
theorem grouping_conservation_cex :
    ((county_sales (filtered_df [natRow] noFilters)).map Prod.snd).sum
      ≠ total_revenue (filtered_df [natRow] noFilters) := by
  decide

/-- C3 amended: per-group revenue sums conserve the revenue of the rows whose
grouping key is non-null.  The `month` and `quarter` views group by string
columns that are never null (an unparsed timestamp yields the label "NaT"),
so their group sums always equal the KPI total revenue of the filtered
row-set; the `county`, `day` and `hour` views drop rows whose key is null,
so their group sums equal the revenue of the filtered rows with a non-null
key — and equal the KPI total whenever every filtered row has a non-null
key. -/
theorem grouping_conservation (df : List Row) (f : Filters) :
    ((drill_month (filtered_df df f)).map Prod.snd).sum
        = total_revenue (filtered_df df f)
      ∧ ((roll_quarter (filtered_df df f)).map Prod.snd).sum
          = total_revenue (filtered_df df f)
      ∧ ((county_sales (filtered_df df f)).map Prod.snd).sum
          = total_revenue ((filtered_df df f).filter (fun r => (r.county).isSome))
      ∧ ((drill_day (filtered_df df f)).map Prod.snd).sum
          = total_revenue ((filtered_df df f).filter (fun r => (r.day).isSome))
      ∧ ((drill_hour (filtered_df df f)).map Prod.snd).sum
          = total_revenue ((filtered_df df f).filter (fun r => (r.hour).isSome))
      ∧ ((∀ r ∈ filtered_df df f, (r.county).isSome) →
          ((county_sales (filtered_df df f)).map Prod.snd).sum
            = total_revenue (filtered_df df f))
      ∧ ((∀ r ∈ filtered_df df f, (r.day).isSome ∧ (r.hour).isSome) →
          ((drill_day (filtered_df df f)).map Prod.snd).sum
              = total_revenue (filtered_df df f)
            ∧ ((drill_hour (filtered_df df f)).map Prod.snd).sum
              = total_revenue (filtered_df df f)) := by
  refine ⟨groupSum_snd_sum_total _ _, groupSum_snd_sum_total _ _,
    groupSum_snd_sum _ _, groupSum_snd_sum _ _, groupSum_snd_sum _ _,
    fun h => ?_, fun h => ⟨?_, ?_⟩⟩
  · simp only [county_sales]
    rw [groupSum_snd_sum, List.filter_eq_self.mpr h]
  · simp only [drill_day]
    rw [groupSum_snd_sum, List.filter_eq_self.mpr (fun r hr => (h r hr).1)]
  · simp only [drill_hour]
    rw [groupSum_snd_sum, List.filter_eq_self.mpr (fun r hr => (h r hr).2)]

/-- Witness for C3: on a concrete one-row filtered set whose county, day and
hour are all non-null, the county, day and hour group sums equal the KPI
total revenue. -/
theorem grouping_conservation_witness :
    ((county_sales (filtered_df [sampleRow] noFilters)).map Prod.snd).sum
        = total_revenue (filtered_df [sampleRow] noFilters)
      ∧ ((drill_day (filtered_df [sampleRow] noFilters)).map Prod.snd).sum
        = total_revenue (filtered_df [sampleRow] noFilters) :=
  ⟨(grouping_conservation [sampleRow] noFilters).2.2.2.2.2.1 (by decide),
   ((grouping_conservation [sampleRow] noFilters).2.2.2.2.2.2 (by decide)).1⟩

/-- A raw row in a second month whose category is missing. -/
def febNoCatRaw : RawRow :=
  { sampleRaw with
    timestamp := .valid ⟨⟨2024, 2, 3⟩, 9⟩
    category := none
    revenue := 2 }

/-- A raw row in a second month with a second category. -/
def febCatBRaw : RawRow :=
  { sampleRaw with
    timestamp := .valid ⟨⟨2024, 2, 3⟩, 9⟩
    category := some "B"
    revenue := 3 }

/-- A two-row set spanning categories A, B and months 2024-01, 2024-02. -/
def pivotSample : List Row := [sampleRow, enrichRow febCatBRaw]

/-- Counterexample for C4 as stated: in the filtered set
`[sampleRow, enrichRow febNoCatRaw]`, the month "2024-02" occurs (on the
row whose category is null) and the category "A" occurs, yet the pivot
result has no ("A", "2024-02") cell: `pivot_table` drops null-category rows
before computing the column axis, so "2024-02" is not a column at all. -/
theorem pivot_dense_cex :
    "2024-02" ∈ (filtered_df [sampleRow, enrichRow febNoCatRaw] noFilters).map
        Row.month
      ∧ "A" ∈ pivotCats (filtered_df [sampleRow, enrichRow febNoCatRaw] noFilters)
      ∧ pivot_df (filtered_df [sampleRow, enrichRow febNoCatRaw] noFilters)
          = [("A", [("2024-01", 5)])]
      ∧ ∀ p ∈ pivot_df (filtered_df [sampleRow, enrichRow febNoCatRaw] noFilters),
          ∀ q ∈ p.2, q.1 ≠ "2024-02" := by
  decide

/-- C4 amended: the pivot is a dense grid over the axes pandas actually
builds — the distinct non-null categories, and the distinct months among
rows whose category is non-null (rows with a null category are dropped
entirely and contribute to neither axis).  Every (category, month) pair of
those axes has exactly one cell, whose value is the summed revenue of the
matching rows, 0 when no row matches. -/
theorem pivot_dense (rows : List Row) :
    (pivot_df rows).map Prod.fst = pivotCats rows
      ∧ (∀ p ∈ pivot_df rows, p.2.map Prod.fst = pivotMonths rows)
      ∧ (∀ c, c ∈ pivotCats rows ↔ ∃ r ∈ rows, r.category = some c)
      ∧ (∀ m, m ∈ pivotMonths rows ↔
          ∃ r ∈ rows, (r.category).isSome ∧ r.month = m)
      ∧ (∀ p ∈ pivot_df rows, ∀ q ∈ p.2,
          q.2 = total_revenue
            (rows.filter (fun r => r.category == some p.1 && r.month == q.1)))
      ∧ (∀ p ∈ pivot_df rows, ∀ q ∈ p.2,
          rows.filter (fun r => r.category == some p.1 && r.month == q.1) = []
            → q.2 = 0)
      ∧ (pivot_df rows).length = (pivotCats rows).length := by
  have hcell : ∀ p ∈ pivot_df rows, ∀ q ∈ p.2,
      q.2 = total_revenue
        (rows.filter (fun r => r.category == some p.1 && r.month == q.1)) := by
    intro p hp q hq
    rcases List.mem_map.mp hp with ⟨c, _, rfl⟩
    rcases List.mem_map.mp hq with ⟨m, _, rfl⟩
    rfl
  have hfst : ∀ {β : Type} (l : List β) (g : β → List (String × Int)),
      (l.map fun b => ((b, g b) : β × List (String × Int))).map Prod.fst = l := by
    intro β l g
    rw [List.map_map]
    exact (List.map_congr_left fun a _ => rfl).trans (List.map_id _)
  have hfst2 : ∀ (l : List String) (g : String → Int),
      (l.map fun m => ((m, g m) : String × Int)).map Prod.fst = l := by
    intro l g
    rw [List.map_map]
    exact (List.map_congr_left fun a _ => rfl).trans (List.map_id _)
  refine ⟨?_, ?_, ?_, ?_, hcell, ?_, ?_⟩
  · exact hfst (pivotCats rows) _
  · intro p hp
    rcases List.mem_map.mp hp with ⟨c, _, rfl⟩
    exact hfst2 (pivotMonths rows) _
  · intro c
    simp [pivotCats, List.mem_dedup, List.mem_filterMap]
  · intro m
    simp only [pivotMonths, List.mem_dedup, List.mem_map, List.mem_filter]
    constructor
    · rintro ⟨r, ⟨hr, hc⟩, rfl⟩
      exact ⟨r, hr, hc, rfl⟩
    · rintro ⟨r, hr, hc, rfl⟩
      exact ⟨r, ⟨hr, hc⟩, rfl⟩
  · intro p hp q hq hempty
    rw [hcell p hp q hq, hempty]
    rfl
  · simp [pivot_df]

/-- Witness for C4: on the concrete two-row set spanning categories {A, B}
and months {2024-01, 2024-02}, the pivot is the dense 2×2 grid (4 cells),
and the value of the empty ("A", "2024-02") cell is the summed revenue of
its (zero) matching rows, i.e. 0. -/
theorem pivot_dense_witness :
    (pivot_df pivotSample).length = (pivotCats pivotSample).length
      ∧ ((("A", [("2024-01", 5), ("2024-02", 0)]) : String × List (String × Int)).2.get
          ⟨1, by decide⟩).2
        = total_revenue (pivotSample.filter
            (fun r => r.category == some "A" && r.month == "2024-02")) :=
  ⟨(pivot_dense pivotSample).2.2.2.2.2.2,
   (pivot_dense pivotSample).2.2.2.2.1
      ("A", [("2024-01", 5), ("2024-02", 0)]) (by decide)
      ("2024-02", 0) (by decide)⟩

/-- A filter configuration whose county selection matches no row of
`[sampleRow]`. -/
def emptyingFilters : Filters := { noFilters with county := ["Mombasa"] }

/-- A filter configuration with a single selected date. -/
def oneDateFilters : Filters :=
  { noFilters with date_selection := [⟨2024, 1, 15⟩] }

/-- C5: when the filtered row-set is empty, no KPI raises — the transaction
count, total revenue and total discount are 0, the average sale is the
defined "no value" `none` (pandas `NaN`), and every grouping view (county,
month, day, hour, quarter, pivot) returns an empty result. -/
theorem empty_filtered_kpis (df : List Row) (f : Filters)
    (h : filtered_df df f = []) :
    total_txns (filtered_df df f) = 0
      ∧ total_revenue (filtered_df df f) = 0
      ∧ total_discount (filtered_df df f) = 0
      ∧ avg_sale (filtered_df df f) = none
      ∧ county_sales (filtered_df df f) = []
      ∧ drill_month (filtered_df df f) = []
      ∧ drill_day (filtered_df df f) = []
      ∧ drill_hour (filtered_df df f) = []
      ∧ roll_quarter (filtered_df df f) = []
      ∧ pivot_df (filtered_df df f) = [] := by
  rw [h]
  exact ⟨rfl, rfl, rfl, rfl, rfl, rfl, rfl, rfl, rfl, rfl⟩

/-- Witness for C5: a one-row set emptied by a county filter that matches
no row. -/
theorem empty_filtered_kpis_witness :
    total_txns (filtered_df [sampleRow] emptyingFilters) = 0
      ∧ avg_sale (filtered_df [sampleRow] emptyingFilters) = none :=
  ⟨(empty_filtered_kpis [sampleRow] emptyingFilters (by decide)).1,
   (empty_filtered_kpis [sampleRow] emptyingFilters (by decide)).2.2.2.1⟩

/-- C6: the date filter has exactly three behaviours — an empty selection
imposes no restriction; a single date keeps exactly the rows whose
timestamp's date component equals it; a start/end pair keeps exactly the
rows whose timestamp's date component lies in the inclusive range (the
comparison `dateLE` is reflexive, so both endpoints are included). -/
theorem date_selection_semantics (sel : List Date) (rows : List Row) :
    (∀ d : Date, dateLE d d = true)
      ∧ (sel = [] → applyDateFilter sel rows = rows)
      ∧ (∀ d, sel = [d] → ∀ r, r ∈ applyDateFilter sel rows ↔
          r ∈ rows ∧ ∃ t, r.timestamp = some t ∧ t.date = d)
      ∧ (∀ s e, sel = [s, e] → ∀ r, r ∈ applyDateFilter sel rows ↔
          r ∈ rows ∧ ∃ t, r.timestamp = some t
            ∧ dateLE s t.date = true ∧ dateLE t.date e = true) := by
  refine ⟨fun d => by simp [dateLE], fun h => by rw [h]; rfl,
    fun d h r => ?_, fun a b h r => ?_⟩
  · subst h
    simp only [applyDateFilter, List.mem_filter]
    constructor
    · rintro ⟨hr, hc⟩
      refine ⟨hr, ?_⟩
      rcases ht : r.timestamp with _ | t
      · rw [ht] at hc
        cases hc
      · rw [ht] at hc
        exact ⟨t, rfl, by simpa using hc⟩
    · rintro ⟨hr, t, ht, hd⟩
      refine ⟨hr, ?_⟩
      rw [ht]
      simpa using hd
  · subst h
    simp only [applyDateFilter, List.mem_filter]
    constructor
    · rintro ⟨hr, hc⟩
      refine ⟨hr, ?_⟩
      rcases ht : r.timestamp with _ | t
      · rw [ht] at hc
        cases hc
      · rw [ht] at hc
        exact ⟨t, rfl, by simpa [Bool.and_eq_true] using hc⟩
    · rintro ⟨hr, t, ht, hd1, hd2⟩
      refine ⟨hr, ?_⟩
      rw [ht]
      simp [hd1, hd2]

/-- Witness for C6: the empty selection leaves a concrete two-row set
unchanged, and a concrete single-date selection keeps `sampleRow` because
its timestamp's date is exactly the selected date. -/
theorem date_selection_semantics_witness :
    applyDateFilter ([] : List Date) [sampleRow, natRow] = [sampleRow, natRow]
      ∧ (sampleRow ∈ applyDateFilter [⟨2024, 1, 15⟩] [sampleRow, natRow] ↔
          sampleRow ∈ [sampleRow, natRow]
            ∧ ∃ t, sampleRow.timestamp = some t ∧ t.date = ⟨2024, 1, 15⟩) :=
  ⟨(date_selection_semantics [] [sampleRow, natRow]).2.1 rfl,
   (date_selection_semantics [⟨2024, 1, 15⟩] [sampleRow, natRow]).2.2.1
      ⟨2024, 1, 15⟩ rfl sampleRow⟩

/-- Counterexample for C7 as stated: for the enriched row of a raw row with
an unparseable timestamp, `day` and `hour` are indeed null, but `month` (and
`quarter`) are the literal non-null string "NaT" — the row is not missing
from the monthly view: it forms a "NaT" group carrying its revenue, whereas
a null/missing month would have been dropped by `groupby` (as the same row
is from the daily and hourly views). -/
theorem nat_propagation_cex :
    natRow.timestamp = none
      ∧ natRow.month = "NaT"
      ∧ natRow.quarter = "NaT"
      ∧ drill_month [natRow] = [("NaT", 7)]
      ∧ drill_month [natRow] ≠ []
      ∧ drill_day [natRow] = [] := by
  decide

/-- C7 amended: a row whose timestamp fails to parse is retained with
timestamp null; the null propagates to `day` and `hour` (both none, and the
row is dropped from the daily and hourly groupings), while `month` and
`quarter` become the literal string "NaT", under which label the row appears
in the monthly grouping with its revenue. -/
theorem nat_propagation (raw : RawRow) (s : String)
    (h : raw.timestamp = .invalid s) :
    (enrichRow raw).timestamp = none
      ∧ (enrichRow raw).day = none
      ∧ (enrichRow raw).hour = none
      ∧ (enrichRow raw).month = "NaT"
      ∧ (enrichRow raw).quarter = "NaT"
      ∧ drill_day [enrichRow raw] = []
      ∧ drill_hour [enrichRow raw] = []
      ∧ drill_month [enrichRow raw] = [("NaT", raw.revenue)] := by
  simp [enrichRow, parse_ts, h, monthStr, quarterStr, drill_day, drill_hour,
    drill_month, groupSum, groupKeys, total_revenue, List.filter_cons]

/-- Witness for C7 (amended): the concrete raw row `natRaw`. -/
theorem nat_propagation_witness :
    (enrichRow natRaw).month = "NaT"
      ∧ drill_month [enrichRow natRaw] = [("NaT", natRaw.revenue)] :=
  ⟨(nat_propagation natRaw "not-a-date" (by decide)).2.2.2.1,
   (nat_propagation natRaw "not-a-date" (by decide)).2.2.2.2.2.2.2⟩

lemma optIsin_iff (v : Option String) (sel : List String) :
    optIsin v sel = true ↔ ∃ c, v = some c ∧ c ∈ sel := by
  cases v <;> simp [optIsin]

/-- C8: the store-name candidate domain is a deduplicated list whose
elements are exactly the store names among rows whose county is selected
(any row when no county is selected) — so it is a pure function of the
loaded rows and the county selection, recomputed from them whenever the
selection changes. -/
theorem store_names_domain (df : List Row) (sel : List String) :
    (store_names df sel).Nodup
      ∧ ∀ s, s ∈ store_names df sel ↔
          (if sel.isEmpty then ∃ r ∈ df, r.storename = some s
           else ∃ r ∈ df, r.storename = some s
                  ∧ ∃ c, r.county = some c ∧ c ∈ sel) := by
  constructor
  · by_cases h : sel.isEmpty <;> simp [store_names, h, List.nodup_dedup]
  · intro a
    by_cases h : sel.isEmpty
    · simp [store_names, h, List.mem_dedup, List.mem_filterMap]
    · simp only [store_names, h, if_neg, List.mem_dedup, List.mem_filterMap,
        List.mem_filter, Bool.not_eq_true]
      constructor
      · rintro ⟨r, ⟨hr, hc⟩, hs⟩
        exact ⟨r, hr, hs, (optIsin_iff _ _).mp hc⟩
      · rintro ⟨r, hr, hs, hc⟩
        exact ⟨r, ⟨hr, (optIsin_iff _ _).mpr hc⟩, hs⟩

/-- C9: a total failure of the raw fetch makes the whole load fail — the
loaded row-set is empty and the caller halts rendering with a warning (no
partial dashboard); row-level parse failures never abort the load — every
raw row, however malformed its timestamp or age cells, yields exactly one
enriched row, and a non-empty fetch always renders. -/
theorem load_failure_semantics (e : String) (raws : List RawRow) :
    load_data (.error e) = []
      ∧ dashboardHalts (.error e) = true
      ∧ load_data (.ok raws) = raws.map enrichRow
      ∧ (load_data (.ok raws)).length = raws.length
      ∧ (raws ≠ [] → dashboardHalts (.ok raws) = false) := by
  refine ⟨rfl, rfl, rfl, List.length_map _ _, fun h => ?_⟩
  simp [dashboardHalts, load_data, h]

/-- Witness for C9: a failed fetch halts; a fetch of one raw row with an
unparseable timestamp and missing county still renders. -/
theorem load_failure_semantics_witness :
    dashboardHalts (.error "connection refused") = true
      ∧ dashboardHalts (.ok [natRaw]) = false :=
  ⟨(load_failure_semantics "connection refused" [natRaw]).2.1,
   (load_failure_semantics "connection refused" [natRaw]).2.2.2.2 (by decide)⟩

/-- C10: a row with a null (unparseable) timestamp is excluded from the
filtered set whenever the date filter is active (one or two dates), because
`NaT` satisfies neither the exact-day equality nor either bound of the
inclusive range; with no date selected, its membership is governed solely by
the seven non-date filters. -/
theorem null_timestamp_date_filter (df : List Row) (f : Filters) (r : Row)
    (h : r.timestamp = none) :
    ((f.date_selection.length = 1 ∨ f.date_selection.length = 2) →
        r ∉ filtered_df df f)
      ∧ (f.date_selection = [] →
          (r ∈ filtered_df df f ↔ r ∈ df ∧ nonDateMatches f r = true)) := by
  constructor
  · intro hlen hmem
    have hm := (mem_filtered_df.mp hmem).2
    rw [matchesRow] at hm
    have hd : dateFilterMatch f.date_selection r.timestamp = false := by
      rcases hsel : f.date_selection with _ | ⟨a, _ | ⟨b, rest⟩⟩
      · rw [hsel] at hlen
        simp at hlen
      · simp [dateFilterMatch, h]
      · rcases rest with _ | ⟨c, rest⟩
        · simp [dateFilterMatch, h]
        · rw [hsel] at hlen
          rcases hlen with h1 | h1 <;> simp [List.length_cons] at h1
    rw [hd] at hm
    simp at hm
  · intro hnil
    rw [mem_filtered_df, matchesRow, hnil]
    simp [dateFilterMatch]

/-- Witness for C10: the concrete null-timestamp row `natRow` is excluded
under a one-date filter and retained (membership governed by the other
filters alone) when no date is selected. -/
theorem null_timestamp_date_filter_witness :
    natRow ∉ filtered_df [sampleRow, natRow] oneDateFilters
      ∧ (natRow ∈ filtered_df [sampleRow, natRow] noFilters ↔
          natRow ∈ [sampleRow, natRow]
            ∧ nonDateMatches noFilters natRow = true) :=
  ⟨(null_timestamp_date_filter [sampleRow, natRow] oneDateFilters natRow
      (by decide)).1 (by decide),
   (null_timestamp_date_filter [sampleRow, natRow] noFilters natRow
      (by decide)).2 rfl⟩

end TechMart
